import Mathlib

/-!
Verification of the validation and signing protocol implemented in
`webex_assistant_sdk/helpers.py`.

The Python functions `validate_request`, `make_request` and
`make_health_check` are shallowly embedded below.  External collaborators
that are not part of the repository source (the `json` module, `base64`,
the `crypto` primitives, the HTTP transport and `os.urandom`) are modelled
as explicit parameters: pure abstract functions bundled in the `Ext`
structure, the random bytes passed as an argument, and the HTTP response
passed as a status code plus decoded body.  Python exceptions become an
explicit error type, and the calls to signature verification and payload
decryption are instrumented with an event trace so that ordering
properties can be stated.
-/

namespace WebexSDK

/-- A Python/JSON value as produced by `json.loads` and consumed by
`json.dumps`.  `null` doubles as the Python value `None`. -/
inductive Json where
  | null : Json
  | bool : Bool → Json
  | num : Int → Json
  | str : String → Json
  | arr : List Json → Json
  | obj : List (String × Json) → Json
deriving Inhabited

/-- Python truthiness of a value (`bool(v)`), as used by `if not v:`. -/
def truthy : Json → Bool
  | .null => false
  | .bool b => b
  | .num n => n != 0
  | .str s => s != ""
  | .arr xs => !xs.isEmpty
  | .obj kvs => !kvs.isEmpty

/-- Python `d.get(k, default)` on a decoded JSON object. -/
def dictGetD (kvs : List (String × Json)) (k : String) (d : Json) : Json :=
  (List.lookup k kvs).getD d

/-- The exceptions that can traverse the embedded code.  The first five
constructors are the exception classes imported by `helpers.py`; `Other`
stands for any exception raised by a collaborator or by the Python runtime
(`json.JSONDecodeError`, `binascii.Error`, `AttributeError`, `TypeError`,
decryption errors, ...), tagged with the kind of the underlying error. -/
inductive PyErr where
  | SignatureValidationError : String → PyErr
  | ServerChallengeValidationError : String → PyErr
  | RequestValidationError : String → PyErr
  | ResponseValidationError : String → PyErr
  | ClientChallengeValidationError : String → PyErr
  | Other : String → PyErr
deriving Repr, DecidableEq

/-- The Python class name of an exception value: the criterion by which an
`except SomeClass:` clause, and hence a caller, distinguishes errors. -/
def errClass : PyErr → String
  | .SignatureValidationError _ => "SignatureValidationError"
  | .ServerChallengeValidationError _ => "ServerChallengeValidationError"
  | .RequestValidationError _ => "RequestValidationError"
  | .ResponseValidationError _ => "ResponseValidationError"
  | .ClientChallengeValidationError _ => "ClientChallengeValidationError"
  | .Other _ => "Other"

/-- Modelled from the spec: the exception hierarchy of the repository's
`exceptions` module is not part of the provided source; per the spec the
recognized inbound validation kinds (SignatureValidationError,
ServerChallengeValidationError) "pass through unchanged" the
`except RequestValidationError: raise` clause, i.e. they are subclasses of
`RequestValidationError`.  This predicate is Python
`isinstance(e, RequestValidationError)`. -/
def isRequestValidationError : PyErr → Bool
  | .SignatureValidationError _ => true
  | .ServerChallengeValidationError _ => true
  | .RequestValidationError _ => true
  | _ => false

/-- The collaborators of `helpers.py` that live outside the repository
source: `json.loads` (failure = `json.JSONDecodeError`),
`base64.b64decode` (failure = `binascii.Error`),
`crypto.verify_signature` (returning normally or raising
`InvalidSignature`, here a Bool) and `crypto.decrypt` applied to the
private key (failure = any decryption exception).  Byte strings are
modelled as `String`. -/
structure Ext where
  loads : String → Except Unit Json
  b64decode : String → Except Unit String
  verify : String → String → String → Bool
  decrypt : String → Except Unit String

/-- Observable events of one inbound validation: the call to
`crypto.verify_signature` on a payload (with its outcome) and the call to
`crypto.decrypt` on a ciphertext. -/
inductive Ev where
  | verifyCalled : String → Bool → Ev
  | decryptCalled : String → Ev
deriving Repr, DecidableEq

/-- The body of the `try:` block of `validate_request` (helpers.py lines
40-75), returning the value of line 83 on success, together with the trace
of crypto calls.  Each Python statement is translated in source order:
the emptiness check, `json.loads(body)`, the two `.get` calls with their
truthiness checks, `encoded_cipher.encode` (AttributeError on a non-string
message), `base64.b64decode(encoded_signature)` (TypeError on a non-string
signature, `binascii.Error` on bad base64, both outside the inner
`try`), the inner `try`/`except InvalidSignature`, `crypto.decrypt`, the
guarded `json.loads` of the plaintext, and the challenge extraction. -/
def validate_request_aux (ext : Ext) (secret : String) (body : String) :
    Except PyErr (Json × Json) × List Ev :=
  if body = "" then (.error (.SignatureValidationError "Missing body"), [])
  else
    match ext.loads body with
    | .error _ => (.error (.Other "JSONDecodeError"), [])
    | .ok json_body =>
      match json_body with
      | .obj kvs =>
        let encoded_signature := dictGetD kvs "signature" (.str "")
        let encoded_cipher := dictGetD kvs "message" (.str "")
        if truthy encoded_signature = false then
          (.error (.SignatureValidationError "Missing signature"), [])
        else if truthy encoded_cipher = false then
          (.error (.SignatureValidationError "Missing message"), [])
        else
          match encoded_cipher with
          | .str cipherText =>
            match encoded_signature with
            | .str sigText =>
              match ext.b64decode sigText with
              | .error _ => (.error (.Other "binascii.Error"), [])
              | .ok sigBytes =>
                if ext.verify secret cipherText sigBytes = false then
                  (.error (.SignatureValidationError "Invalid signature"),
                    [.verifyCalled cipherText false])
                else
                  match ext.decrypt cipherText with
                  | .error _ =>
                      (.error (.Other "DecryptionError"),
                        [.verifyCalled cipherText true, .decryptCalled cipherText])
                  | .ok decrypted_body =>
                    match ext.loads decrypted_body with
                    | .error _ =>
                        (.error (.RequestValidationError "Invalid request data"),
                          [.verifyCalled cipherText true, .decryptCalled cipherText])
                    | .ok request_json =>
                      match request_json with
                      | .obj rkvs =>
                        let challenge := dictGetD rkvs "challenge" .null
                        if truthy challenge = false then
                          (.error (.ServerChallengeValidationError "Missing challenge"),
                            [.verifyCalled cipherText true, .decryptCalled cipherText])
                        else
                          (.ok (request_json, challenge),
                            [.verifyCalled cipherText true, .decryptCalled cipherText])
                      | _ =>
                          (.error (.Other "AttributeError"),
                            [.verifyCalled cipherText true, .decryptCalled cipherText])
            | _ => (.error (.Other "TypeError"), [])
          | _ => (.error (.Other "AttributeError"), [])
      | _ => (.error (.Other "AttributeError"), [])

/-- The full `validate_request` (helpers.py lines 24-83): the `try` block
above wrapped in `except RequestValidationError: raise` followed by
`except Exception as exc: raise RequestValidationError(...) from exc`. -/
def validate_request (ext : Ext) (secret : String) (body : String) :
    Except PyErr (Json × Json) × List Ev :=
  match validate_request_aux ext secret body with
  | (.ok r, t) => (.ok r, t)
  | (.error e, t) =>
    if isRequestValidationError e then (.error e, t)
    else (.error (.RequestValidationError "Cannot validate request"), t)

/-- Python equality `v == s` between an arbitrary decoded value and a
`str`: true exactly when `v` is an equal string (no normalization, and a
value of any other type, including `None`, compares unequal). -/
def pyEqStr : Json → String → Bool
  | .str t, s => t == s
  | _, _ => false

/-- The default context of `make_request` (helpers.py lines 97-102),
used when the caller passes a falsy `context`. -/
def defaultContext : Json :=
  .obj [("orgId", .str "fake-org-id"), ("userId", .str "fake-user-id"),
        ("userType", .str "fake"),
        ("supportedDirectives",
          .arr [.str "reply", .str "speak", .str "display-web-view",
                .str "sleep", .str "listen"])]

/-- Python `v or d` for an optional argument (`none` models `None`):
yields `d` when `v` is `None` or falsy. -/
def pyOrDefault (v : Option Json) (d : Json) : Json :=
  match v with
  | some x => if truthy x then x else d
  | none => d

/-- The wire object `request` built by `make_request` (helpers.py lines
97-115): `context = context or defaultContext`, then the dict
comprehension keeping, in insertion order, exactly the pairs whose value
is not `None`.  Optional arguments are `Option Json` with `none`
modelling Python `None`. -/
def pruneNone (l : List (String × Option Json)) : List (String × Json) :=
  l.filterMap fun kv => kv.2.map fun v => (kv.1, v)

def make_request_wire (challenge : String)
    (text context params frame history : Option Json) : List (String × Json) :=
  let ctx := pyOrDefault context defaultContext
  pruneNone
    [("challenge", some (Json.str challenge)), ("text", text),
     ("context", some ctx), ("params", params), ("frame", frame),
     ("history", history)]

/-- The response handling of `make_request` (helpers.py lines 126-134),
given the transport status code and the decoded JSON response body:
non-200 is a `ResponseValidationError`, a challenge mismatch is a
`ClientChallengeValidationError`, and otherwise the response body is
returned unchanged.  A `.get` on a non-object response raises
`AttributeError` (uncaught in the Python). -/
def make_request_response (challenge : String) (status : Nat)
    (response_body : Json) : Except PyErr Json :=
  if status ≠ 200 then .error (.ResponseValidationError "Request failed")
  else
    match response_body with
    | .obj kvs =>
      if pyEqStr (dictGetD kvs "challenge" .null) challenge = false then
        .error (.ClientChallengeValidationError "Response failed challenge")
      else .ok (.obj kvs)
    | _ => .error (.Other "AttributeError")

/-- The response handling of `make_health_check` (helpers.py lines
145-153); identical to `make_request_response` except for the transport
failure message. -/
def make_health_check_response (challenge : String) (status : Nat)
    (response_body : Json) : Except PyErr Json :=
  if status ≠ 200 then .error (.ResponseValidationError "Health check failed")
  else
    match response_body with
    | .obj kvs =>
      if pyEqStr (dictGetD kvs "challenge" .null) challenge = false then
        .error (.ClientChallengeValidationError "Response failed challenge")
      else .ok (.obj kvs)
    | _ => .error (.Other "AttributeError")

/-- Hex digit of a nibble, as produced by Python `bytes.hex()`
(lower-case). -/
def hexDigitChar (n : Nat) : Char :=
  if n < 10 then Char.ofNat (48 + n) else Char.ofNat (87 + n)

/-- The two hex digits of one byte. -/
def byteToHex (b : Nat) : List Char :=
  [hexDigitChar (b / 16), hexDigitChar (b % 16)]

/-- Python `bs.hex()` on a byte string. -/
def bytesHex (bs : List Nat) : String :=
  ⟨(bs.map byteToHex).flatten⟩

/-- Challenge generation `os.urandom(64).hex()` (helpers.py lines 95 and
138), with the bytes drawn from the system entropy source passed
explicitly; `os.urandom(64)` returns exactly 64 bytes, each below 256. -/
def new_challenge (randomBytes : List Nat) : String :=
  bytesHex randomBytes

/-- Lower-case hexadecimal digit test. -/
def isHexChar (c : Char) : Bool :=
  (48 ≤ c.toNat && c.toNat ≤ 57) || (97 ≤ c.toNat && c.toNat ≤ 102)

/-- Concrete collaborators used to exercise the embedding on closed
inputs: a toy decoder covering a handful of envelopes, a base64 decoder
that accepts only the token sigOk, a verifier that accepts exactly the
signature bytes SIG, and a decrypter covering the matching ciphertexts. -/
def extTest : Ext where
  loads := fun s =>
    if s = "env-ok" then
      .ok (.obj [("signature", .str "sigOk"), ("message", .str "msgOk")])
    else if s = "env-badb64" then
      .ok (.obj [("signature", .str "sigBad"), ("message", .str "msgOk")])
    else if s = "env-wrongsig" then
      .ok (.obj [("signature", .str "sigWrong"), ("message", .str "msgOk")])
    else if s = "env-nochallenge" then
      .ok (.obj [("signature", .str "sigOk"), ("message", .str "msgNoCh")])
    else if s = "env-decfail" then
      .ok (.obj [("signature", .str "sigOk"), ("message", .str "msgDecFail")])
    else if s = "env-parsefail" then
      .ok (.obj [("signature", .str "sigOk"), ("message", .str "msgGarbage")])
    else if s = "\x7b\x7d" then .ok (.obj [])
    else if s = "pt-ok" then
      .ok (.obj [("challenge", .str "ch-1"), ("text", .str "hi")])
    else if s = "pt-nochallenge" then .ok (.obj [("text", .str "hi")])
    else .error ()
  b64decode := fun s =>
    if s = "sigOk" then .ok "SIG"
    else if s = "sigWrong" then .ok "BADSIG"
    else .error ()
  verify := fun _ _ sig => sig == "SIG"
  decrypt := fun c =>
    if c = "msgOk" then .ok "pt-ok"
    else if c = "msgNoCh" then .ok "pt-nochallenge"
    else if c = "msgGarbage" then .ok "garbage"
    else .error ()

/-- The exception class escaping a call, or ok for a normal return. -/
def resultClass {α : Type} : Except PyErr α → String
  | .error e => errClass e
  | .ok _ => "ok"

@[simp] theorem truthy_str (s : String) : truthy (.str s) = (s != "") := rfl

@[simp] theorem truthy_null : truthy .null = false := rfl

theorem validate_request_trace (ext : Ext) (secret : String) (body : String) :
    (validate_request ext secret body).2 = (validate_request_aux ext secret body).2 := by
  rcases h : validate_request_aux ext secret body with ⟨r, t⟩
  cases r
  · rename_i e
    by_cases he : isRequestValidationError e <;> simp [validate_request, h, he]
  · simp [validate_request, h]

theorem validate_pass_through (ext : Ext) (secret body : String) (e : PyErr) (t : List Ev)
    (h : validate_request_aux ext secret body = (.error e, t))
    (he : isRequestValidationError e = true) :
    validate_request ext secret body = (.error e, t) := by
  simp [validate_request, h, he]

theorem validate_wrap (ext : Ext) (secret body : String) (e : PyErr) (t : List Ev)
    (h : validate_request_aux ext secret body = (.error e, t))
    (he : isRequestValidationError e = false) :
    validate_request ext secret body =
      (.error (.RequestValidationError "Cannot validate request"), t) := by
  simp [validate_request, h, he]

theorem validate_ok (ext : Ext) (secret body : String) (r : Json × Json) (t : List Ev)
    (h : validate_request_aux ext secret body = (.ok r, t)) :
    validate_request ext secret body = (.ok r, t) := by
  simp [validate_request, h]

theorem validate_request_aux_shape (ext : Ext) (secret body : String) :
    (validate_request_aux ext secret body).2 = [] ∨
    (∃ c, (validate_request_aux ext secret body).2 = [Ev.verifyCalled c false]) ∨
    (∃ c, (validate_request_aux ext secret body).2 =
      [Ev.verifyCalled c true, Ev.decryptCalled c]) := by
  unfold validate_request_aux
  dsimp only
  repeat' split
  all_goals simp

/-- C1: during inbound validation, decryption is invoked only after signature
verification over the raw (still-encrypted) message string has succeeded:
whenever the event trace of validate_request contains a decryptCalled event
for some ciphertext, the whole trace consists of a successful verifyCalled
event on that very string strictly followed by the decryptCalled event; in
particular an envelope whose signature does not verify is never fed to
decryption. -/
theorem C1_verify_before_decrypt (ext : Ext) (secret body c : String)
    (h : Ev.decryptCalled c ∈ (validate_request ext secret body).2) :
    (validate_request ext secret body).2 =
      [Ev.verifyCalled c true, Ev.decryptCalled c] := by
  rw [validate_request_trace] at h ⊢
  rcases validate_request_aux_shape ext secret body with h0 | ⟨d, hd⟩ | ⟨d, hd⟩
  · rw [h0] at h; simp at h
  · rw [hd] at h; simp at h
  · rw [hd] at h
    simp only [List.mem_cons, List.not_mem_nil, or_false] at h
    rcases h with h | h
    · exact absurd h (by simp)
    · rw [hd]
      cases h
      rfl

/-- Witness for C1 at a concrete fully-valid envelope. -/
theorem C1_verify_before_decrypt_witness :
    Ev.decryptCalled "msgOk" ∈ (validate_request extTest "s3cr3t" "env-ok").2 ∧
    (validate_request extTest "s3cr3t" "env-ok").2 =
      [Ev.verifyCalled "msgOk" true, Ev.decryptCalled "msgOk"] :=
  ⟨by decide, C1_verify_before_decrypt extTest "s3cr3t" "env-ok" "msgOk" (by decide)⟩

/-- C2: an input whose body is empty, or whose JSON body (an object) has a
missing or empty signature field, or a missing or empty message field, makes
validate_request fail with a SignatureValidationError rather than crash. -/
theorem C2_missing_fields (ext : Ext) (secret body : String)
    (kvs : List (String × Json))
    (h : body = "" ∨
      (ext.loads body = .ok (.obj kvs) ∧
        (truthy (dictGetD kvs "signature" (.str "")) = false ∨
         truthy (dictGetD kvs "message" (.str "")) = false))) :
    ∃ m, (validate_request ext secret body).1 =
      .error (.SignatureValidationError m) := by
  by_cases hb : body = ""
  · refine ⟨"Missing body", ?_⟩
    simp [validate_request, validate_request_aux, hb, isRequestValidationError]
  · rcases h with h | ⟨hl, hsm⟩
    · exact absurd h hb
    · by_cases hs : truthy (dictGetD kvs "signature" (.str "")) = false
      · refine ⟨"Missing signature", ?_⟩
        simp [validate_request, validate_request_aux, hb, hl, hs,
          isRequestValidationError]
      · have hm : truthy (dictGetD kvs "message" (.str "")) = false := by tauto
        refine ⟨"Missing message", ?_⟩
        simp [validate_request, validate_request_aux, hb, hl, hs, hm,
          isRequestValidationError]

/-- Witness for C2: the envelope with body decoding to the empty JSON
object fails with a SignatureValidationError. -/
theorem C2_missing_fields_witness :
    (extTest.loads "\x7b\x7d" = .ok (.obj []) ∧
      (truthy (dictGetD [] "signature" (.str "")) = false ∨
       truthy (dictGetD [] "message" (.str "")) = false)) ∧
    ∃ m, (validate_request extTest "s3cr3t" "\x7b\x7d").1 =
      .error (.SignatureValidationError m) :=
  ⟨⟨rfl, Or.inl rfl⟩,
    C2_missing_fields extTest "s3cr3t" "\x7b\x7d" [] (Or.inr ⟨rfl, Or.inl rfl⟩)⟩

/-- C3 counterexample: an envelope whose signature field is not valid base64
(the toy decoder rejects the token sigBad) is reported as the generic
RequestValidationError raised by the catch-all, not as a
SignatureValidationError: `base64.b64decode` runs outside the
`try`/`except InvalidSignature` block, so `binascii.Error` reaches the
outer `except Exception` handler. -/
theorem C3_counterexample :
    (validate_request extTest "s3cr3t" "env-badb64").1 =
      .error (.RequestValidationError "Cannot validate request") ∧
    resultClass (validate_request extTest "s3cr3t" "env-badb64").1 ≠
      "SignatureValidationError" :=
  ⟨rfl, by decide⟩

/-- C3 amended: a signature mismatch (the provided signature decodes as
base64 but does not verify) is reported as a SignatureValidationError,
while a malformed (non-base64) signature encoding is reported as the
generic RequestValidationError; in both cases validation returns an error
of a recognized validation class rather than crashing. -/
theorem C3_mismatch_vs_malformed (ext : Ext) (secret body : String)
    (kvs : List (String × Json)) (sigText cipherText : String)
    (hb : body ≠ "")
    (hl : ext.loads body = .ok (.obj kvs))
    (hsig : dictGetD kvs "signature" (.str "") = .str sigText)
    (hsne : sigText ≠ "")
    (hmsg : dictGetD kvs "message" (.str "") = .str cipherText)
    (hmne : cipherText ≠ "") :
    (ext.b64decode sigText = .error () →
      (validate_request ext secret body).1 =
        .error (.RequestValidationError "Cannot validate request")) ∧
    (∀ sigBytes, ext.b64decode sigText = .ok sigBytes →
      ext.verify secret cipherText sigBytes = false →
      (validate_request ext secret body).1 =
        .error (.SignatureValidationError "Invalid signature")) := by
  constructor
  · intro h64
    simp [validate_request, validate_request_aux, hb, hl, hsig, hmsg, hsne,
      hmne, h64, truthy, isRequestValidationError]
  · intro sigBytes h64 hv
    simp [validate_request, validate_request_aux, hb, hl, hsig, hmsg, hsne,
      hmne, h64, hv, truthy, isRequestValidationError]

/-- Witness for C3 amended at the concrete envelopes with a non-base64
signature and with a wrong signature. -/
theorem C3_mismatch_vs_malformed_witness :
    ((("env-badb64" : String) ≠ "" ∧
      extTest.loads "env-badb64" =
        .ok (.obj [("signature", .str "sigBad"), ("message", .str "msgOk")]) ∧
      extTest.b64decode "sigBad" = .error ()) ∧
     (validate_request extTest "s3cr3t" "env-badb64").1 =
       .error (.RequestValidationError "Cannot validate request")) ∧
    ((("env-wrongsig" : String) ≠ "" ∧
      extTest.b64decode "sigWrong" = .ok "BADSIG" ∧
      extTest.verify "s3cr3t" "msgOk" "BADSIG" = false) ∧
     (validate_request extTest "s3cr3t" "env-wrongsig").1 =
       .error (.SignatureValidationError "Invalid signature")) :=
  ⟨⟨⟨by decide, rfl, rfl⟩,
    (C3_mismatch_vs_malformed extTest "s3cr3t" "env-badb64"
      [("signature", .str "sigBad"), ("message", .str "msgOk")]
      "sigBad" "msgOk" (by decide) rfl rfl (by decide) rfl (by decide)).1 rfl⟩,
   ⟨⟨by decide, rfl, rfl⟩,
    (C3_mismatch_vs_malformed extTest "s3cr3t" "env-wrongsig"
      [("signature", .str "sigWrong"), ("message", .str "msgOk")]
      "sigWrong" "msgOk" (by decide) rfl rfl (by decide) rfl (by decide)).2
      "BADSIG" rfl rfl⟩⟩

/-- C4: when an envelope passes signature verification and decryption but the
decrypted JSON object has no challenge key, or a falsy (empty) challenge
value, validate_request fails with a ServerChallengeValidationError. -/
theorem C4_missing_challenge (ext : Ext) (secret body : String)
    (kvs rkvs : List (String × Json))
    (sigText cipherText sigBytes decrypted : String)
    (hb : body ≠ "")
    (hl : ext.loads body = .ok (.obj kvs))
    (hsig : dictGetD kvs "signature" (.str "") = .str sigText)
    (hsne : sigText ≠ "")
    (hmsg : dictGetD kvs "message" (.str "") = .str cipherText)
    (hmne : cipherText ≠ "")
    (hb64 : ext.b64decode sigText = .ok sigBytes)
    (hv : ext.verify secret cipherText sigBytes = true)
    (hd : ext.decrypt cipherText = .ok decrypted)
    (hp : ext.loads decrypted = .ok (.obj rkvs))
    (hch : truthy (dictGetD rkvs "challenge" .null) = false) :
    (validate_request ext secret body).1 =
      .error (.ServerChallengeValidationError "Missing challenge") := by
  simp [validate_request, validate_request_aux, hb, hl, hsig, hmsg, hsne,
    hmne, hb64, hv, hd, hp, hch, isRequestValidationError]

/-- Witness for C4 at a concrete envelope decrypting to an object with no
challenge key. -/
theorem C4_missing_challenge_witness :
    (extTest.decrypt "msgNoCh" = .ok "pt-nochallenge" ∧
      extTest.loads "pt-nochallenge" = .ok (.obj [("text", .str "hi")]) ∧
      truthy (dictGetD [("text", .str "hi")] "challenge" .null) = false) ∧
    (validate_request extTest "s3cr3t" "env-nochallenge").1 =
      .error (.ServerChallengeValidationError "Missing challenge") :=
  ⟨⟨rfl, rfl, rfl⟩,
    C4_missing_challenge extTest "s3cr3t" "env-nochallenge"
      [("signature", .str "sigOk"), ("message", .str "msgNoCh")]
      [("text", .str "hi")] "sigOk" "msgNoCh" "SIG" "pt-nochallenge"
      (by decide) rfl rfl (by decide) rfl (by decide) rfl rfl rfl rfl rfl⟩

/-- C5 counterexample: a decryption failure and a malformed decrypted payload
surface as exceptions of the same Python class (RequestValidationError): the
decryption-failure path goes through the catch-all at lines 79-81 and the
parse-failure path raises RequestValidationError directly at line 71, so the
exception type does not distinguish the two causes. -/
theorem C5_counterexample :
    resultClass (validate_request extTest "s3cr3t" "env-decfail").1 =
      resultClass (validate_request extTest "s3cr3t" "env-parsefail").1 ∧
    (validate_request extTest "s3cr3t" "env-decfail").1 =
      .error (.RequestValidationError "Cannot validate request") ∧
    (validate_request extTest "s3cr3t" "env-parsefail").1 =
      .error (.RequestValidationError "Invalid request data") :=
  ⟨rfl, rfl, rfl⟩

/-- C5 amended: past a successful signature verification, a decryption
failure and a decrypted payload that does not parse as JSON both surface as
RequestValidationError — the same exception class — and are distinguishable
only by the exception message: Cannot validate request for a decryption
failure (the wrapped collaborator error) versus Invalid request data for
malformed decrypted JSON. -/
theorem C5_decrypt_vs_parse (ext : Ext) (secret body : String)
    (kvs : List (String × Json)) (sigText cipherText sigBytes : String)
    (hb : body ≠ "")
    (hl : ext.loads body = .ok (.obj kvs))
    (hsig : dictGetD kvs "signature" (.str "") = .str sigText)
    (hsne : sigText ≠ "")
    (hmsg : dictGetD kvs "message" (.str "") = .str cipherText)
    (hmne : cipherText ≠ "")
    (hb64 : ext.b64decode sigText = .ok sigBytes)
    (hv : ext.verify secret cipherText sigBytes = true) :
    (ext.decrypt cipherText = .error () →
      (validate_request ext secret body).1 =
        .error (.RequestValidationError "Cannot validate request")) ∧
    (∀ decrypted, ext.decrypt cipherText = .ok decrypted →
      ext.loads decrypted = .error () →
      (validate_request ext secret body).1 =
        .error (.RequestValidationError "Invalid request data")) ∧
    ("Cannot validate request" : String) ≠ "Invalid request data" := by
  refine ⟨?_, ?_, by decide⟩
  · intro hd
    simp [validate_request, validate_request_aux, hb, hl, hsig, hmsg, hsne,
      hmne, hb64, hv, hd, isRequestValidationError]
  · intro decrypted hd hp
    simp [validate_request, validate_request_aux, hb, hl, hsig, hmsg, hsne,
      hmne, hb64, hv, hd, hp, isRequestValidationError]

/-- Witness for C5 amended at the concrete failing-decryption and
failing-parse envelopes. -/
theorem C5_decrypt_vs_parse_witness :
    ((extTest.decrypt "msgDecFail" = .error () ∧
      (validate_request extTest "s3cr3t" "env-decfail").1 =
        .error (.RequestValidationError "Cannot validate request"))) ∧
    ((extTest.decrypt "msgGarbage" = .ok "garbage" ∧
      extTest.loads "garbage" = .error () ∧
      (validate_request extTest "s3cr3t" "env-parsefail").1 =
        .error (.RequestValidationError "Invalid request data"))) :=
  ⟨⟨rfl,
    (C5_decrypt_vs_parse extTest "s3cr3t" "env-decfail"
      [("signature", .str "sigOk"), ("message", .str "msgDecFail")]
      "sigOk" "msgDecFail" "SIG" (by decide) rfl rfl (by decide) rfl
      (by decide) rfl rfl).1 rfl⟩,
   ⟨rfl, rfl,
    ((C5_decrypt_vs_parse extTest "s3cr3t" "env-parsefail"
      [("signature", .str "sigOk"), ("message", .str "msgGarbage")]
      "sigOk" "msgGarbage" "SIG" (by decide) rfl rfl (by decide) rfl
      (by decide) rfl rfl).2).1 "garbage" rfl rfl⟩⟩

/-- C6: inside validate_request, an error of a recognized validation class
(isinstance of RequestValidationError) raised by the try block propagates to
the caller unchanged, any other error is re-raised as the generic
RequestValidationError with message Cannot validate request, and every
error escaping validate_request is of a recognized validation class. -/
theorem C6_error_normalization (ext : Ext) (secret body : String) :
    (∀ e t, validate_request_aux ext secret body = (.error e, t) →
      isRequestValidationError e = true →
      validate_request ext secret body = (.error e, t)) ∧
    (∀ e t, validate_request_aux ext secret body = (.error e, t) →
      isRequestValidationError e = false →
      validate_request ext secret body =
        (.error (.RequestValidationError "Cannot validate request"), t)) ∧
    (∀ e, (validate_request ext secret body).1 = .error e →
      isRequestValidationError e = true) := by
  refine ⟨fun e t h he => validate_pass_through ext secret body e t h he,
    fun e t h he => validate_wrap ext secret body e t h he, ?_⟩
  intro e he
  rcases h : validate_request_aux ext secret body with ⟨r, t⟩
  cases r with
  | error e2 =>
    by_cases h2 : isRequestValidationError e2 = true
    · rw [validate_pass_through ext secret body e2 t h h2] at he
      injection he with h3
      rw [← h3]
      exact h2
    · rw [validate_wrap ext secret body e2 t h
        (Bool.eq_false_iff.mpr h2)] at he
      injection he with h3
      rw [← h3]
      rfl
  | ok v =>
    rw [validate_ok ext secret body v t h] at he
    cases he

/-- Witness for C6: the recognized ServerChallengeValidationError raised at
a concrete envelope passes through the catch-all unchanged. -/
theorem C6_error_normalization_witness :
    validate_request_aux extTest "s3cr3t" "env-nochallenge" =
      (.error (.ServerChallengeValidationError "Missing challenge"),
        [Ev.verifyCalled "msgNoCh" true, Ev.decryptCalled "msgNoCh"]) ∧
    isRequestValidationError
      (.ServerChallengeValidationError "Missing challenge") = true ∧
    validate_request extTest "s3cr3t" "env-nochallenge" =
      (.error (.ServerChallengeValidationError "Missing challenge"),
        [Ev.verifyCalled "msgNoCh" true, Ev.decryptCalled "msgNoCh"]) :=
  ⟨rfl, rfl,
    (C6_error_normalization extTest "s3cr3t" "env-nochallenge").1 _ _ rfl rfl⟩

theorem pruneNone_mem_iff (l : List (String × Option Json)) (k : String)
    (v : Json) : (k, v) ∈ pruneNone l ↔ (k, some v) ∈ l := by
  unfold pruneNone
  rw [List.mem_filterMap]
  constructor
  · rintro ⟨⟨k2, w⟩, hmem, hf⟩
    rcases w with _ | w2
    · simp at hf
    · simp only [Option.map] at hf
      injection hf with h1
      injection h1 with h2 h3
      subst h2
      subst h3
      exact hmem
  · intro hmem
    exact ⟨(k, some v), hmem, rfl⟩

theorem pyOrDefault_ne_null (v : Option Json) :
    pyOrDefault v defaultContext ≠ Json.null := by
  rcases v with _ | x
  · simp [pyOrDefault, defaultContext]
  · simp only [pyOrDefault]
    split
    · rename_i hx
      intro he
      rw [he] at hx
      simp at hx
    · simp [defaultContext]

theorem mem_wire_iff (c : String) (t cx p f y : Option Json)
    (k : String) (v : Json) :
    (k, v) ∈ make_request_wire c t cx p f y ↔
      (k = "challenge" ∧ v = Json.str c) ∨
      (k = "text" ∧ some v = t) ∨
      (k = "context" ∧ v = pyOrDefault cx defaultContext) ∨
      (k = "params" ∧ some v = p) ∨
      (k = "frame" ∧ some v = f) ∨
      (k = "history" ∧ some v = y) := by
  have hwire : make_request_wire c t cx p f y =
      ("challenge", Json.str c) :: pruneNone
        [("text", t), ("context", some (pyOrDefault cx defaultContext)),
         ("params", p), ("frame", f), ("history", y)] := rfl
  rw [hwire, List.mem_cons, pruneNone_mem_iff]
  simp only [List.mem_cons, List.not_mem_nil, or_false, Prod.mk.injEq,
    Option.some.injEq]

/-- C7 counterexample: a call supplying no context at all (Python
`context=None`) still produces a wire object containing the context key,
bound to the built-in default context, because line 97 replaces a falsy
context with the default before pruning; so context is not "present only if
supplied by the caller". -/
theorem C7_counterexample :
    make_request_wire "ch" (some (.str "hi")) none none none none =
      [("challenge", .str "ch"), ("text", .str "hi"),
       ("context", defaultContext)] ∧
    ("context", defaultContext) ∈
      make_request_wire "ch" (some (.str "hi")) none none none none :=
  ⟨rfl, (mem_wire_iff "ch" (some (.str "hi")) none none none none
    "context" defaultContext).mpr
      (Or.inr (Or.inr (Or.inl ⟨rfl, rfl⟩)))⟩

/-- C7 amended: the wire object never contains a null-valued key (given that
the optional arguments model Python values, where null content can only be
the argument None itself, modelled as none); the challenge key is always
present and bound to the generated challenge; each of text, params, frame
and history is present exactly when the caller supplied a non-None value;
and context is always present — bound to the caller's value when that value
is truthy and to the built-in default context otherwise. -/
theorem C7_wire_shape (challenge : String)
    (text context params frame history : Option Json)
    (ht : text ≠ some .null) (hp : params ≠ some .null)
    (hf : frame ≠ some .null) (hh : history ≠ some .null) :
    List.lookup "challenge"
      (make_request_wire challenge text context params frame history) =
      some (.str challenge) ∧
    (∀ k v,
      (k, v) ∈ make_request_wire challenge text context params frame history →
      v ≠ .null) ∧
    ((∃ v, ("text", v) ∈
        make_request_wire challenge text context params frame history) ↔
      text ≠ none) ∧
    ((∃ v, ("params", v) ∈
        make_request_wire challenge text context params frame history) ↔
      params ≠ none) ∧
    ((∃ v, ("frame", v) ∈
        make_request_wire challenge text context params frame history) ↔
      frame ≠ none) ∧
    ((∃ v, ("history", v) ∈
        make_request_wire challenge text context params frame history) ↔
      history ≠ none) ∧
    ("context", pyOrDefault context defaultContext) ∈
      make_request_wire challenge text context params frame history := by
  refine ⟨?_, ?_, ?_, ?_, ?_, ?_, ?_⟩
  · rw [show make_request_wire challenge text context params frame history =
      ("challenge", Json.str challenge) :: pruneNone
        [("text", text),
         ("context", some (pyOrDefault context defaultContext)),
         ("params", params), ("frame", frame), ("history", history)]
      from rfl]
    simp [List.lookup]
  · intro k v hv
    rw [mem_wire_iff] at hv
    intro he
    subst he
    rcases hv with ⟨_, h2⟩ | ⟨_, h2⟩ | ⟨_, h2⟩ | ⟨_, h2⟩ | ⟨_, h2⟩ | ⟨_, h2⟩
    · exact absurd h2 (by simp)
    · exact ht h2.symm
    · exact pyOrDefault_ne_null context h2.symm
    · exact hp h2.symm
    · exact hf h2.symm
    · exact hh h2.symm
  · constructor
    · rintro ⟨v, hv⟩
      rw [mem_wire_iff] at hv
      rcases hv with ⟨hk, _⟩ | ⟨_, h2⟩ | ⟨hk, _⟩ | ⟨hk, _⟩ | ⟨hk, _⟩ | ⟨hk, _⟩
      · exact absurd hk (by decide)
      · intro he
        rw [he] at h2
        cases h2
      · exact absurd hk (by decide)
      · exact absurd hk (by decide)
      · exact absurd hk (by decide)
      · exact absurd hk (by decide)
    · intro hne
      rcases text with _ | tv
      · exact absurd rfl hne
      · exact ⟨tv, (mem_wire_iff _ _ _ _ _ _ _ _).mpr
          (Or.inr (Or.inl ⟨rfl, rfl⟩))⟩
  · constructor
    · rintro ⟨v, hv⟩
      rw [mem_wire_iff] at hv
      rcases hv with ⟨hk, _⟩ | ⟨hk, _⟩ | ⟨hk, _⟩ | ⟨_, h2⟩ | ⟨hk, _⟩ | ⟨hk, _⟩
      · exact absurd hk (by decide)
      · exact absurd hk (by decide)
      · exact absurd hk (by decide)
      · intro he
        rw [he] at h2
        cases h2
      · exact absurd hk (by decide)
      · exact absurd hk (by decide)
    · intro hne
      rcases params with _ | pv
      · exact absurd rfl hne
      · exact ⟨pv, (mem_wire_iff _ _ _ _ _ _ _ _).mpr
          (Or.inr (Or.inr (Or.inr (Or.inl ⟨rfl, rfl⟩))))⟩
  · constructor
    · rintro ⟨v, hv⟩
      rw [mem_wire_iff] at hv
      rcases hv with ⟨hk, _⟩ | ⟨hk, _⟩ | ⟨hk, _⟩ | ⟨hk, _⟩ | ⟨_, h2⟩ | ⟨hk, _⟩
      · exact absurd hk (by decide)
      · exact absurd hk (by decide)
      · exact absurd hk (by decide)
      · exact absurd hk (by decide)
      · intro he
        rw [he] at h2
        cases h2
      · exact absurd hk (by decide)
    · intro hne
      rcases frame with _ | fv
      · exact absurd rfl hne
      · exact ⟨fv, (mem_wire_iff _ _ _ _ _ _ _ _).mpr
          (Or.inr (Or.inr (Or.inr (Or.inr (Or.inl ⟨rfl, rfl⟩)))))⟩
  · constructor
    · rintro ⟨v, hv⟩
      rw [mem_wire_iff] at hv
      rcases hv with ⟨hk, _⟩ | ⟨hk, _⟩ | ⟨hk, _⟩ | ⟨hk, _⟩ | ⟨hk, _⟩ | ⟨_, h2⟩
      · exact absurd hk (by decide)
      · exact absurd hk (by decide)
      · exact absurd hk (by decide)
      · exact absurd hk (by decide)
      · exact absurd hk (by decide)
      · intro he
        rw [he] at h2
        cases h2
    · intro hne
      rcases history with _ | yv
      · exact absurd rfl hne
      · exact ⟨yv, (mem_wire_iff _ _ _ _ _ _ _ _).mpr
          (Or.inr (Or.inr (Or.inr (Or.inr (Or.inr ⟨rfl, rfl⟩)))))⟩
  · exact (mem_wire_iff _ _ _ _ _ _ _ _).mpr
      (Or.inr (Or.inr (Or.inl ⟨rfl, rfl⟩)))

/-- Witness for C7 amended at a concrete call with text and params supplied
and no context, frame or history. -/
theorem C7_wire_shape_witness :
    ((some (Json.str "turn on") ≠ some Json.null) ∧
     (some (Json.num 3) ≠ some Json.null) ∧
     ((none : Option Json) ≠ some Json.null) ∧
     ((none : Option Json) ≠ some Json.null)) ∧
    (List.lookup "challenge"
      (make_request_wire "abc" (some (.str "turn on")) none
        (some (.num 3)) none none) = some (.str "abc") ∧
     (∃ v, ("params", v) ∈
        make_request_wire "abc" (some (.str "turn on")) none
          (some (.num 3)) none none) ∧
     ("context", pyOrDefault none defaultContext) ∈
        make_request_wire "abc" (some (.str "turn on")) none
          (some (.num 3)) none none) := by
  have h := C7_wire_shape "abc" (some (.str "turn on")) none
    (some (.num 3)) none none (by simp) (by simp) (by simp) (by simp)
  exact ⟨⟨by simp, by simp, by simp, by simp⟩,
    h.1, h.2.2.2.1.mpr (by simp), h.2.2.2.2.2.2⟩

theorem pyEqStr_iff (v : Json) (s : String) :
    pyEqStr v s = true ↔ v = .str s := by
  cases v <;> simp [pyEqStr]

/-- C8: for a success-status (200) response to an outbound request or a
health check, a challenge field that is absent or not exactly the string
sent raises ClientChallengeValidationError from both make_request and
make_health_check, while an exactly equal challenge makes both return the
full response object unmodified. -/
theorem C8_challenge_echo (challenge : String) (kvs : List (String × Json)) :
    (dictGetD kvs "challenge" .null = .str challenge →
      make_request_response challenge 200 (.obj kvs) = .ok (.obj kvs) ∧
      make_health_check_response challenge 200 (.obj kvs) = .ok (.obj kvs)) ∧
    (dictGetD kvs "challenge" .null ≠ .str challenge →
      make_request_response challenge 200 (.obj kvs) =
        .error (.ClientChallengeValidationError "Response failed challenge") ∧
      make_health_check_response challenge 200 (.obj kvs) =
        .error (.ClientChallengeValidationError "Response failed challenge")) := by
  constructor
  · intro h
    have hq : pyEqStr (dictGetD kvs "challenge" .null) challenge = true :=
      (pyEqStr_iff _ _).mpr h
    constructor <;>
      simp [make_request_response, make_health_check_response, hq]
  · intro h
    have hq : pyEqStr (dictGetD kvs "challenge" .null) challenge = false := by
      rcases hb : pyEqStr (dictGetD kvs "challenge" .null) challenge
      · rfl
      · exact absurd ((pyEqStr_iff _ _).mp hb) h
    constructor <;>
      simp [make_request_response, make_health_check_response, hq]

/-- Witness for C8 at a concrete matching and non-matching response. -/
theorem C8_challenge_echo_witness :
    (dictGetD [("challenge", .str "c-1")] "challenge" .null = .str "c-1" ∧
      make_request_response "c-1" 200 (.obj [("challenge", .str "c-1")]) =
        .ok (.obj [("challenge", .str "c-1")])) ∧
    (dictGetD [("challenge", .str "c-2")] "challenge" .null ≠ .str "c-1" ∧
      make_health_check_response "c-1" 200 (.obj [("challenge", .str "c-2")]) =
        .error (.ClientChallengeValidationError "Response failed challenge")) := by
  have hne : dictGetD [("challenge", Json.str "c-2")] "challenge" .null ≠
      Json.str "c-1" := by
    intro h
    injection h with h2
    exact absurd h2 (by decide)
  exact ⟨⟨rfl, ((C8_challenge_echo "c-1" [("challenge", .str "c-1")]).1 rfl).1⟩,
    ⟨hne, ((C8_challenge_echo "c-1" [("challenge", .str "c-2")]).2 hne).2⟩⟩

theorem bytesHex_length (bs : List Nat) :
    (bytesHex bs).length = 2 * bs.length := by
  induction bs with
  | nil => rfl
  | cons b t ih =>
    have h1 : (bytesHex (b :: t)).length =
        (byteToHex b).length + (bytesHex t).length := by
      simp [bytesHex, String.length]
    rw [h1, ih]
    simp [byteToHex]
    omega

theorem hexDigitChar_isHex : ∀ n < 16, isHexChar (hexDigitChar n) = true := by
  decide

/-- C9: on any draw of 64 bytes from the entropy source, the generated
challenge is a 128-character string consisting only of lower-case
hexadecimal digits. -/
theorem C9_challenge_format (bs : List Nat) (hlen : bs.length = 64)
    (hbytes : ∀ b ∈ bs, b < 256) :
    (new_challenge bs).length = 128 ∧
    ∀ c ∈ (new_challenge bs).data, isHexChar c = true := by
  constructor
  · have h := bytesHex_length bs
    rw [hlen] at h
    exact h
  · intro c hc
    have hc2 : c ∈ (bs.map byteToHex).flatten := hc
    rw [List.mem_flatten] at hc2
    rcases hc2 with ⟨l, hl, hcl⟩
    rw [List.mem_map] at hl
    rcases hl with ⟨b, hb, hlb⟩
    rw [← hlb] at hcl
    simp only [byteToHex, List.mem_cons, List.not_mem_nil, or_false] at hcl
    have hb256 := hbytes b hb
    rcases hcl with rfl | rfl
    · exact hexDigitChar_isHex (b / 16) (by omega)
    · exact hexDigitChar_isHex (b % 16) (by omega)

/-- Witness for C9 on a concrete 64-byte draw. -/
theorem C9_challenge_format_witness :
    (List.replicate 64 0).length = 64 ∧
    (∀ b ∈ List.replicate 64 0, b < 256) ∧
    ((new_challenge (List.replicate 64 0)).length = 128 ∧
      ∀ c ∈ (new_challenge (List.replicate 64 0)).data, isHexChar c = true) :=
  ⟨by decide, by decide,
    C9_challenge_format (List.replicate 64 0) (by decide) (by decide)⟩

/-- C10: whenever validate_request succeeds, the returned pair is
consistent: the returned mapping is exactly the JSON object parsed from the
decrypted bytes of the envelope's message (no keys added, removed or
altered), and the returned challenge is exactly the value of the challenge
key of that mapping (and is truthy). -/
theorem C10_success_consistency (ext : Ext) (secret body : String)
    (j ch : Json)
    (h : (validate_request ext secret body).1 = .ok (j, ch)) :
    ∃ kvs cipherText decrypted rkvs,
      ext.loads body = .ok (.obj kvs) ∧
      dictGetD kvs "message" (.str "") = .str cipherText ∧
      ext.decrypt cipherText = .ok decrypted ∧
      ext.loads decrypted = .ok j ∧
      j = .obj rkvs ∧
      ch = dictGetD rkvs "challenge" .null ∧
      truthy ch = true := by
  have haux : (validate_request_aux ext secret body).1 = .ok (j, ch) := by
    rcases hA : validate_request_aux ext secret body with ⟨r, t⟩
    cases r with
    | error e =>
      by_cases he : isRequestValidationError e = true
      · rw [validate_pass_through ext secret body e t hA he] at h
        cases h
      · rw [validate_wrap ext secret body e t hA
          (Bool.eq_false_iff.mpr he)] at h
        cases h
    | ok v =>
      rw [validate_ok ext secret body v t hA] at h
      injection h with h1
      rw [h1]
  unfold validate_request_aux at haux
  dsimp only at haux
  repeat' split at haux
  all_goals simp only [Except.ok.injEq, Prod.mk.injEq,
    reduceCtorEq] at haux
  obtain ⟨hj, hch⟩ := haux
  subst hj
  subst hch
  exact ⟨_, _, _, _, by assumption, by assumption, by assumption,
    by assumption, rfl, rfl, by simp_all⟩

/-- Witness for C10 at a concrete fully-valid envelope. -/
theorem C10_success_consistency_witness :
    (validate_request extTest "s3cr3t" "env-ok").1 =
      .ok (.obj [("challenge", .str "ch-1"), ("text", .str "hi")],
        .str "ch-1") ∧
    ∃ kvs cipherText decrypted rkvs,
      extTest.loads "env-ok" = .ok (.obj kvs) ∧
      dictGetD kvs "message" (.str "") = .str cipherText ∧
      extTest.decrypt cipherText = .ok decrypted ∧
      extTest.loads decrypted =
        .ok (.obj [("challenge", .str "ch-1"), ("text", .str "hi")]) ∧
      (Json.obj [("challenge", .str "ch-1"), ("text", .str "hi")]) =
        .obj rkvs ∧
      (Json.str "ch-1") = dictGetD rkvs "challenge" .null ∧
      truthy (Json.str "ch-1") = true :=
  ⟨rfl, C10_success_consistency extTest "s3cr3t" "env-ok"
    (.obj [("challenge", .str "ch-1"), ("text", .str "hi")])
    (.str "ch-1") rfl⟩

end WebexSDK
